import Mathlib

/-!
Verification development for the WhatsApp support-bot pipeline (`main.py`).

The Python source is shallowly embedded: each helper of the pipeline
becomes a Lean function over `String` / `List Char` / explicit state.
Python `dict.get` of possibly-missing fields becomes `Option`; Python
truthiness of strings (`""` and `None` are falsy) is modelled explicitly;
wall-clock time is modelled as `Nat` seconds; `datetime` values are
modelled as a record of calendar fields (Python's `datetime` type keeps
these in range by construction).
-/

/-! ## Python string primitives -/

/-- Whitespace characters recognised by Python `str.strip` / the `\s`
regex class, restricted to ASCII (all strings in this program are ASCII
apart from emoji, which are not whitespace). -/
def pyIsSpace (c : Char) : Bool :=
  c = ' ' || c = '\t' || c = '\n' || c = '\r' || c = '\x0b' || c = '\x0c'

/-- Python `str.strip()` on the character list. -/
def pyStripChars (cs : List Char) : List Char :=
  ((cs.dropWhile pyIsSpace).reverse.dropWhile pyIsSpace).reverse

/-- Python `str.strip()`. -/
def py_strip (s : String) : String := ⟨pyStripChars s.data⟩

/-- Python `str.lower()` (ASCII case mapping, which covers every string
this program compares). -/
def pyLower (s : String) : String := ⟨s.data.map Char.toLower⟩

/-- Python `str.capitalize()` (ASCII): first character upper-cased, the
rest lower-cased. -/
def pyCapitalize (s : String) : String :=
  match s.data with
  | [] => ""
  | c :: rest => ⟨c.toUpper :: rest.map Char.toLower⟩

/-- Python `s.split('\n', 1)`: the text before the first newline, and
(when a newline exists) the text after it. -/
def splitFirstNL : List Char → List Char × Option (List Char)
  | [] => ([], none)
  | c :: rest =>
    if c = '\n' then ([], some rest)
    else
      let p := splitFirstNL rest
      (c :: p.1, p.2)

/-- First element of Python `s.split('\n', 1)`. -/
def firstLine (s : String) : String := ⟨(splitFirstNL s.data).1⟩

/-- Second element of Python `s.split('\n', 1)`, empty when the split
produced a single piece (`lines[1] if len(lines) > 1 else ""`). -/
def restLines (s : String) : String := ⟨((splitFirstNL s.data).2).getD []⟩

/-- Does `sep` occur at the head of `cs`? -/
def isPrefixList : List Char → List Char → Bool
  | [], _ => true
  | _ :: _, [] => false
  | a :: as, b :: bs => a = b && isPrefixList as bs

/-- Python `sep in s` for a non-empty separator. -/
def containsSeq (sep : List Char) : List Char → Bool
  | [] => isPrefixList sep []
  | c :: rest => isPrefixList sep (c :: rest) || containsSeq sep rest

/-- The text after the first occurrence of `sep`, or `none` when `sep`
does not occur. -/
def afterFirstSeq (sep : List Char) : List Char → Option (List Char)
  | [] => if isPrefixList sep [] then some [] else none
  | c :: rest =>
    if isPrefixList sep (c :: rest) then some ((c :: rest).drop sep.length)
    else afterFirstSeq sep rest

/-- The text before the first occurrence of `sep` (all of it when `sep`
does not occur). -/
def upToFirstSeq (sep : List Char) : List Char → List Char
  | [] => []
  | c :: rest =>
    if isPrefixList sep (c :: rest) then [] else c :: upToFirstSeq sep rest

/-- Fuelled remover of every occurrence of `sep`, scanning left to right
without overlap — Python `s.replace(sep, '')` for a non-empty `sep`.
The fuel is an upper bound on the number of characters still to scan. -/
def removeSeqFuel (sep : List Char) : Nat → List Char → List Char
  | 0, cs => cs
  | _ + 1, [] => []
  | fuel + 1, c :: rest =>
    if isPrefixList sep (c :: rest) && !sep.isEmpty then
      removeSeqFuel sep fuel ((c :: rest).drop sep.length)
    else c :: removeSeqFuel sep fuel rest

/-- Python `s.replace(sep, '')` for a non-empty `sep`. -/
def removeSeq (sep : List Char) (cs : List Char) : List Char :=
  removeSeqFuel sep cs.length cs

/-- Python `"INTENT:" in line`. -/
def hasIntentMarker (line : String) : Bool :=
  containsSeq "INTENT:".data line.data

/-- Python `line.split("INTENT:")[1]`: the text between the first
occurrence of the marker and the next occurrence (or the end). Only
evaluated under the `hasIntentMarker` guard, exactly as in the source. -/
def afterIntentMarker (line : String) : String :=
  ⟨upToFirstSeq "INTENT:".data ((afterFirstSeq "INTENT:".data line.data).getD [])⟩

/-! ## AI response parsing (`get_smart_response`, lines 252-263)

The parsing step applied to the model's reply:

    result = response.text.strip()
    lines = result.split('\n', 1)
    intent_line = lines[0] if lines else ""
    response_line = lines[1] if len(lines) > 1 else ""
    intent = "general"
    if "INTENT:" in intent_line:
        intent = intent_line.split("INTENT:")[1].strip().lower()
    answer = response_line.replace("RESPONSE:", "").strip()
    return intent, answer
-/

/-- The classifier parse of `get_smart_response`, from the raw reply text
to the `(intent, answer)` pair. -/
def parse_smart_response (raw : String) : String × String :=
  let result := py_strip raw
  let intent_line := firstLine result
  let response_line := restLines result
  let intent :=
    if hasIntentMarker intent_line then pyLower (py_strip (afterIntentMarker intent_line))
    else "general"
  let answer := py_strip ⟨removeSeq "RESPONSE:".data response_line.data⟩
  (intent, answer)

/-! ## Phone-number normalization (`get_user_info`, line 93)

    query_number = phone_number.replace('+', '').lstrip('91')

`str.lstrip('91')` removes ALL leading characters that are `'9'` or
`'1'`, not the prefix `"91"`. -/

/-- Python `phone_number.replace('+', '')`. -/
def removePlus (s : String) : String := ⟨s.data.filter (fun c => c ≠ '+')⟩

/-- Python `str.lstrip('91')`: drop leading characters belonging to the
set `{'9', '1'}`. -/
def pyLstrip91 (s : String) : String :=
  ⟨s.data.dropWhile (fun c => c = '9' || c = '1')⟩

/-- The normalized number used for the directory query
(`query_number` in `get_user_info`). -/
def query_number (phone_number : String) : String :=
  pyLstrip91 (removePlus phone_number)

/-! ## Webhook verification (`webhook_verify`, lines 368-373)

    if request.args.get("hub.mode") == "subscribe" and request.args.get("hub.challenge"):
        if request.args.get("hub.verify_token") == VERIFY_TOKEN:
            return request.args.get("hub.challenge")
        return "Forbidden", 403

When the outer condition fails the function falls off the end and
returns Python `None`; Flask turns a `None` return into a server error,
not an HTTP 403. We model the handler's outcome as
`Option (String × Nat)`, `none` standing for the fall-through. -/

/-- The three query parameters of the verification request; `none` is a
missing parameter (`request.args.get` yields Python `None`). -/
structure WebhookArgs where
  mode : Option String
  challenge : Option String
  verify_token : Option String
deriving DecidableEq

/-- Python truthiness of an optional string: `None` and `""` are falsy. -/
def truthy : Option String → Bool
  | none => false
  | some s => s ≠ ""

/-- The `GET /webhook` handler. `cfgToken` is the configured
`VERIFY_TOKEN` (itself optional: `os.environ.get` may yield `None`).
Returning a bare string means HTTP 200 in Flask. -/
def webhook_verify (cfgToken : Option String) (args : WebhookArgs) :
    Option (String × Nat) :=
  if args.mode = some "subscribe" ∧ truthy args.challenge then
    if args.verify_token = cfgToken then some (args.challenge.getD "", 200)
    else some ("Forbidden", 403)
  else none

/-! ## Calendar model (`datetime`, `strptime`, `strftime`)

Python `datetime` values keep their fields in range by construction
(year 1-9999, month 1-12, day within the month, hour < 24,
minute/second < 60); a timezone-aware Firestore timestamp denotes a UTC
instant and is modelled by its UTC calendar fields. -/

/-- A Python `datetime` value, by its calendar fields. -/
structure PyDateTime where
  year : Nat
  month : Nat
  day : Nat
  hour : Nat
  minute : Nat
  second : Nat
deriving DecidableEq

/-- `datetime.min` = 0001-01-01 00:00:00, the sort key of unparseable
timestamps. -/
def datetimeMin : PyDateTime := ⟨1, 1, 1, 0, 0, 0⟩

/-- The Gregorian leap-year rule (`calendar.isleap`). -/
def isLeap (y : Nat) : Bool := (y % 4 = 0 && y % 100 ≠ 0) || y % 400 = 0

/-- Days in a month, as enforced by the `datetime` constructor. -/
def daysInMonth (y m : Nat) : Nat :=
  if m = 2 then (if isLeap y then 29 else 28)
  else if m = 4 || m = 6 || m = 9 || m = 11 then 30 else 31

/-- Field list giving the lexicographic comparison `datetime` uses. -/
def dtList (d : PyDateTime) : List Nat :=
  [d.year, d.month, d.day, d.hour, d.minute, d.second]

/-! ### `strptime` for the two timestamp formats

    timestamp_formats = ["%B %d, %Y at %I:%M:%S %p UTC+5:30",
                         "%b %d, %Y at %I:%M:%S %p UTC+5:30"]

CPython compiles a format into a regex: directives become the character
classes below, literal text matches case-insensitively, and a run of
whitespace in the format matches one or more whitespace characters.
The whole input must be consumed, and the matched fields must form a
valid `datetime` (otherwise `ValueError`, which the source catches by
trying the next format). -/

/-- Full month names (`%B`), lower-cased for case-insensitive matching. -/
def monthsFull : List String :=
  ["january", "february", "march", "april", "may", "june",
   "july", "august", "september", "october", "november", "december"]

/-- Abbreviated month names (`%b`), lower-cased. -/
def monthsAbbr : List String :=
  ["jan", "feb", "mar", "apr", "may", "jun",
   "jul", "aug", "sep", "oct", "nov", "dec"]

/-- Case-insensitive literal match; returns the rest of the input. -/
def matchCI : List Char → List Char → Option (List Char)
  | [], cs => some cs
  | _ :: _, [] => none
  | l :: ls, c :: cs => if c.toLower = l.toLower then matchCI ls cs else none

/-- Match one of the month names, numbering from 1 at index `i`. -/
def matchMonthFrom : List String → Nat → List Char → Option (Nat × List Char)
  | [], _, _ => none
  | n :: rest, i, cs =>
    match matchCI n.data cs with
    | some r => some (i, r)
    | none => matchMonthFrom rest (i + 1) cs

/-- One-or-more whitespace (a whitespace run in the format). -/
def matchWs : List Char → Option (List Char)
  | c :: rest => if pyIsSpace c then some (rest.dropWhile pyIsSpace) else none
  | [] => none

/-- Numeric value of an ASCII digit. -/
def digitVal (c : Char) : Nat := c.toNat - '0'.toNat

/-- A 1-2 digit numeric directive: a two-digit match is taken when its
value lies in `[lo2, hi2]`; otherwise the regex backtracks to a single
digit, accepted when its value is at least `lo1`.
`%d` is `(3,1,31,1)`-shaped: `lo2 = 1, hi2 = 31, lo1 = 1`;
`%I`: `lo2 = 1, hi2 = 12, lo1 = 1`; `%M`: `lo2 = 0, hi2 = 59, lo1 = 0`;
`%S`: `lo2 = 0, hi2 = 61, lo1 = 0`. -/
def matchNum (lo2 hi2 lo1 : Nat) : List Char → Option (Nat × List Char)
  | [] => none
  | c1 :: rest1 =>
    if c1.isDigit then
      match rest1 with
      | c2 :: rest2 =>
        if c2.isDigit then
          let v := digitVal c1 * 10 + digitVal c2
          if lo2 ≤ v ∧ v ≤ hi2 then some (v, rest2)
          else if lo1 ≤ digitVal c1 then some (digitVal c1, rest1)
          else none
        else if lo1 ≤ digitVal c1 then some (digitVal c1, rest1)
        else none
      | [] => if lo1 ≤ digitVal c1 then some (digitVal c1, []) else none
    else none

/-- `%Y`: exactly four digits. -/
def matchYear : List Char → Option (Nat × List Char)
  | a :: b :: c :: d :: rest =>
    if a.isDigit && b.isDigit && c.isDigit && d.isDigit then
      some (digitVal a * 1000 + digitVal b * 100 + digitVal c * 10 + digitVal d, rest)
    else none
  | _ => none

/-- `%p`: `AM` or `PM`, case-insensitively; `true` means PM. -/
def matchAmPm (cs : List Char) : Option (Bool × List Char) :=
  match matchCI ['a', 'm'] cs with
  | some r => some (false, r)
  | none =>
    match matchCI ['p', 'm'] cs with
    | some r => some (true, r)
    | none => none

/-- The `"<month> %d, %Y"` part of the format: month name, whitespace,
day, the literal comma, whitespace, four-digit year. Yields
`(year, month, day, rest)`. -/
def parseDatePart (months : List String) (cs : List Char) :
    Option (Nat × Nat × Nat × List Char) := do
  let (mo, r1) ← matchMonthFrom months 1 cs
  let r2 ← matchWs r1
  let (d, r3) ← matchNum 1 31 1 r2
  let r4 ← matchCI [','] r3
  let r5 ← matchWs r4
  let (y, r6) ← matchYear r5
  some (y, mo, d, r6)

/-- The `" at %I:%M:%S"` part of the format. Yields
`(hour12, minute, second, rest)`. -/
def parseTimePart (cs : List Char) : Option (Nat × Nat × Nat × List Char) := do
  let r7 ← matchWs cs
  let r8 ← matchCI ['a', 't'] r7
  let r9 ← matchWs r8
  let (h12, r10) ← matchNum 1 12 1 r9
  let r11 ← matchCI [':'] r10
  let (mi, r12) ← matchNum 0 59 0 r11
  let r13 ← matchCI [':'] r12
  let (sec, r14) ← matchNum 0 61 0 r13
  some (h12, mi, sec, r14)

/-- The `" %p UTC+5:30"` part of the format. Yields the PM flag. -/
def parseSuffixPart (cs : List Char) : Option (Bool × List Char) := do
  let r15 ← matchWs cs
  let (pm, r16) ← matchAmPm r15
  let r17 ← matchWs r16
  let r18 ← matchCI "utc+5:30".data r17
  some (pm, r18)

/-- `strptime` against `"<month> %d, %Y at %I:%M:%S %p UTC+5:30"` with
the given month-name list, including the validity checks the `datetime`
constructor performs on the matched fields and the requirement that the
whole input is consumed. -/
def parseTsWith (months : List String) (cs : List Char) : Option PyDateTime := do
  let (y, mo, d, rest1) ← parseDatePart months cs
  let (h12, mi, sec, rest2) ← parseTimePart rest1
  let (pm, rest3) ← parseSuffixPart rest2
  if rest3 = [] then
    let h := if pm then (if h12 = 12 then 12 else h12 + 12)
             else (if h12 = 12 then 0 else h12)
    if 1 ≤ y ∧ d ≤ daysInMonth y mo ∧ sec ≤ 59 then
      some ⟨y, mo, d, h, mi, sec⟩
    else none
  else none

/-- The `for fmt in timestamp_formats: try datetime.strptime(val, fmt)`
loop of `get_sort_key`: the full-month format first, then the
abbreviated-month format; `none` when both raise `ValueError`. -/
def parseTimestamp (s : String) : Option PyDateTime :=
  match parseTsWith monthsFull s.data with
  | some d => some d
  | none => parseTsWith monthsAbbr s.data

/-! ### `strftime` and Asia/Kolkata conversion -/

/-- Zero-pad to two digits. -/
def pad2 (n : Nat) : String := if n < 10 then "0" ++ toString n else toString n

/-- Days in year `y` strictly before month `m` (non-leap table plus the
leap-day correction). -/
def cumDays (y m : Nat) : Nat :=
  [0, 31, 59, 90, 120, 151, 181, 212, 243, 273, 304, 334].getD (m - 1) 0
    + (if 2 < m && isLeap y then 1 else 0)

/-- The Rata Die day number: 0001-01-01 is day 1 (a Monday in the
proleptic Gregorian calendar). -/
def rataDie (y m d : Nat) : Nat :=
  365 * (y - 1) + (y - 1) / 4 - (y - 1) / 100 + (y - 1) / 400 + cumDays y m + d

/-- `%A`: the full weekday name. -/
def weekdayName (y m d : Nat) : String :=
  ["Sunday", "Monday", "Tuesday", "Wednesday", "Thursday", "Friday",
   "Saturday"].getD (rataDie y m d % 7) ""

/-- `%B` for `strftime`: the full month name, capitalised. -/
def monthNameOf (m : Nat) : String :=
  ["January", "February", "March", "April", "May", "June", "July",
   "August", "September", "October", "November", "December"].getD (m - 1) ""

/-- `ts_val.astimezone(IST)` for an aware UTC `datetime`: shift the
instant by +05:30 (Asia/Kolkata), rolling the calendar fields over. A
valid datetime shifts by at most one day. -/
def astimezoneIST (d : PyDateTime) : PyDateTime :=
  let total := d.hour * 60 + d.minute + 330
  if total < 1440 then
    { d with hour := total / 60, minute := total % 60 }
  else
    let h := (total - 1440) / 60
    let m := (total - 1440) % 60
    if d.day < daysInMonth d.year d.month then
      { d with day := d.day + 1, hour := h, minute := m }
    else if d.month < 12 then
      { d with month := d.month + 1, day := 1, hour := h, minute := m }
    else
      { year := d.year + 1, month := 1, day := 1, hour := h, minute := m,
        second := d.second }

/-- `strftime("%A, %B %d, %Y at %I:%M %p")`, the display format of
upcoming-booking timestamps. -/
def strftimeDisplay (d : PyDateTime) : String :=
  weekdayName d.year d.month d.day ++ ", " ++ monthNameOf d.month ++ " "
    ++ pad2 d.day ++ ", " ++ toString d.year ++ " at "
    ++ pad2 (if d.hour % 12 = 0 then 12 else d.hour % 12) ++ ":" ++ pad2 d.minute
    ++ " " ++ (if d.hour < 12 then "AM" else "PM")

/-! ## Booking data and the two formatters
(`format_bookings_for_whatsapp` lines 129-161,
`format_past_bookings_for_whatsapp` lines 163-190)

A Firestore booking document's `timestamp` field is duck-typed: a native
(timezone-aware, UTC) `datetime`, a string, or absent; every other field
used by the formatters is a string or absent. -/

/-- The heterogeneous `timestamp` field. -/
inductive TsVal where
  | dt (d : PyDateTime)
  | str (s : String)
deriving DecidableEq

/-- A booking document, restricted to the fields the formatters read
(`dict.get` of an absent key yields `None`, hence `Option`). -/
structure Booking where
  clinicName : Option String := none
  specialization : Option String := none
  doctorName : Option String := none
  timestamp : Option TsVal := none
  bookingStatus : Option String := none
  bookingDate : Option String := none
deriving DecidableEq

/-- `get_sort_key` (identical in both formatters): a native datetime is
its own key, a string is parsed against the two formats, anything else
(or a string matching neither format) sorts as `datetime.min`. -/
def get_sort_key (b : Booking) : PyDateTime :=
  match b.timestamp with
  | some (.dt d) => d
  | some (.str s) => (parseTimestamp s).getD datetimeMin
  | none => datetimeMin

/-- Ascending comparison by sort key (list order on the calendar fields
is exactly `datetime` order). Non-strict, so that Python's stable sort
is modelled by a stable insertion sort. -/
def bookLeAsc (a b : Booking) : Prop :=
  dtList (get_sort_key a) ≤ dtList (get_sort_key b)

/-- Descending comparison by sort key (`sort(key=..., reverse=True)`
keeps equal keys in encounter order, like the non-strict stable
insertion sort by this relation). -/
def bookLeDesc (a b : Booking) : Prop :=
  dtList (get_sort_key b) ≤ dtList (get_sort_key a)

instance : DecidableRel bookLeAsc :=
  fun a b => inferInstanceAs (Decidable (dtList (get_sort_key a) ≤ dtList (get_sort_key b)))

instance : DecidableRel bookLeDesc :=
  fun a b => inferInstanceAs (Decidable (dtList (get_sort_key b) ≤ dtList (get_sort_key a)))

instance : IsTotal Booking bookLeAsc := ⟨fun _ _ => le_total _ _⟩

instance : IsTrans Booking bookLeAsc := ⟨fun _ _ _ h1 h2 => le_trans h1 h2⟩

instance : IsTotal Booking bookLeDesc := ⟨fun _ _ => le_total _ _⟩

instance : IsTrans Booking bookLeDesc := ⟨fun _ _ _ h1 h2 => le_trans h2 h1⟩

/-- The status filter of the upcoming formatter
(`b.get('bookingStatus') == 'upcoming'`). -/
def isUpcoming (b : Booking) : Bool := b.bookingStatus = some "upcoming"

/-- The status filter of the past formatter
(`b.get('bookingStatus') == 'completed'`). -/
def isCompleted (b : Booking) : Bool := b.bookingStatus = some "completed"

/-- `upcoming.sort(key=get_sort_key)`: the filtered list, stably sorted
ascending by key. -/
def upcomingSorted (bookings : List Booking) : List Booking :=
  (bookings.filter isUpcoming).insertionSort bookLeAsc

/-- `past.sort(key=get_sort_key, reverse=True)`: the filtered list,
stably sorted descending by key. -/
def pastSorted (bookings : List Booking) : List Booking :=
  (bookings.filter isCompleted).insertionSort bookLeDesc

/-- The per-booking block of the upcoming formatter. A missing
`timestamp` displays as `"Not scheduled"`; a native datetime is
converted to Asia/Kolkata and formatted; a string timestamp is shown
verbatim. -/
def upcoming_booking_block (booking : Booking) : String :=
  let clinic := booking.clinicName.getD "Not specified"
  let specialization := booking.specialization.getD "Not specified"
  let doctor := booking.doctorName.getD "Not specified"
  let timestamp_str :=
    match booking.timestamp with
    | some (.dt d) => strftimeDisplay (astimezoneIST d)
    | some (.str s) => s
    | none => "Not scheduled"
  "\n*Clinic:* " ++ clinic ++ "\n*Specialization:* " ++ specialization
    ++ "\n*Doctor:* " ++ doctor ++ "\n*Date:* " ++ timestamp_str
    ++ "\n--------------------------------------\n"

/-- The per-booking block of the past formatter. -/
def past_booking_block (booking : Booking) : String :=
  let clinic := booking.clinicName.getD "Not specified"
  let doctor := booking.doctorName.getD "Not specified"
  let status := pyCapitalize (booking.bookingStatus.getD "N/A")
  let booking_date := booking.bookingDate.getD "Not specified"
  "\n*Clinic:* " ++ clinic ++ "\n*Doctor:* " ++ doctor
    ++ "\n*Date:* " ++ booking_date ++ "\n*Status:* " ++ status
    ++ "\n--------------------------------------\n"

/-- `format_bookings_for_whatsapp`. -/
def format_bookings_for_whatsapp (bookings : List Booking) : String :=
  if bookings = [] then "You have no appointments found in our system."
  else if bookings.filter isUpcoming = [] then
    "You have no upcoming appointments scheduled at this time."
  else
    "🗓️ *Your Upcoming Appointments*\n--------------------------------------\n"
      ++ String.join ((upcomingSorted bookings).map upcoming_booking_block)

/-- `format_past_bookings_for_whatsapp`. -/
def format_past_bookings_for_whatsapp (bookings : List Booking) : String :=
  if bookings = [] then "You have no booking history found in our system."
  else if bookings.filter isCompleted = [] then
    "No completed bookings found in your history."
  else
    "📋 *Your Booking History*\n--------------------------------------\n"
      ++ String.join ((pastSorted bookings).map past_booking_block)

/-! ## Identity cache (`get_user_info`, lines 83-111)

The process-wide `user_cache` dict maps the raw phone number to a
`(value, fetched_at)` pair; `value` may be a user record or Python
`None` (a cached definitive not-found). Wall-clock time is `Nat`
seconds; the directory is an oracle from the normalized number to
either a result (`ok`, possibly not-found) or a raised exception
(`err`). The user-record payload is an arbitrary type `υ`. -/

/-- `CACHE_TTL = 300  # 5 minutes`. -/
def CACHE_TTL : Nat := 300

/-- The `user_cache` dict: at most one binding per key, newest first. -/
def Cache (υ : Type) : Type := List (String × Option υ × Nat)

/-- Dict membership plus read: `user_cache[cache_key]`. -/
def cacheGet {υ : Type} (c : Cache υ) (k : String) : Option (Option υ × Nat) :=
  match c with
  | [] => none
  | (k2, v) :: rest => if k2 = k then some v else cacheGet rest k

/-- Dict assignment: `user_cache[cache_key] = (value, time.time())`. -/
def cacheSet {υ : Type} (c : Cache υ) (k : String) (v : Option υ × Nat) : Cache υ :=
  (k, v) :: c.filter (fun p => p.1 ≠ k)

/-- Outcome of one directory query (`query.stream()`): a found record,
a definitive empty result, or a raised exception. -/
inductive DirResult (υ : Type) where
  | ok (u : Option υ)
  | err
deriving DecidableEq

/-- The observable outcome of one `get_user_info` call: the returned
value, the cache after the call, and whether a directory query was
issued. -/
structure LookupOut (υ : Type) where
  result : Option υ
  cache : Cache υ
  queried : Bool

/-- The `try` block of `get_user_info`: normalize the number, query the
directory, cache a success or a definitive not-found with the current
time; a raised error returns `None` WITHOUT touching the cache. -/
def fetch_user {υ : Type} (dir : String → DirResult υ) (now : Nat)
    (cache : Cache υ) (phone_number : String) : LookupOut υ :=
  match dir (query_number phone_number) with
  | .ok (some u) => ⟨some u, cacheSet cache phone_number (some u, now), true⟩
  | .ok none => ⟨none, cacheSet cache phone_number (none, now), true⟩
  | .err => ⟨none, cache, true⟩

/-- `get_user_info`: serve a cache entry younger than `CACHE_TTL`
without querying; otherwise fall through to the directory fetch. -/
def get_user_info {υ : Type} (dir : String → DirResult υ) (now : Nat)
    (cache : Cache υ) (phone_number : String) : LookupOut υ :=
  match cacheGet cache phone_number with
  | some (cached_data, ts) =>
    if now - ts < CACHE_TTL then ⟨cached_data, cache, false⟩
    else fetch_user dir now cache phone_number
  | none => fetch_user dir now cache phone_number

/-! ## Query router (`handle_user_query`, lines 289-322)

The AI Bridge (`get_smart_response`) and the bookings query
(`get_user_bookings`) are oracles; the dispatcher
(`send_whatsapp_message`) is modelled by recording the outbound texts.
The trace also counts AI Bridge invocations. -/

/-- The resolved user record, restricted to the fields the router reads. -/
structure UserInfo where
  name : Option String := none
  uid : Option String := none
deriving DecidableEq

/-- What one `handle_user_query` run did: the texts sent (in order) and
the number of AI Bridge calls. -/
structure HandlerTrace where
  sent : List String
  aiCalls : Nat
deriving DecidableEq

/-- `user_info.get("name", "there") if user_info else "there"`. -/
def greeting_name (user_info : Option UserInfo) : String :=
  match user_info with
  | some u => u.name.getD "there"
  | none => "there"

/-- `handle_user_query`: the fixed trigger phrase bypasses the AI
Bridge; otherwise one AI call, then dispatch on the returned intent
(`user_info and user_info.get(...)` is Python truthiness: a missing
record, a missing field, or an empty string all fall back). -/
def handle_user_query (ai : String → Option UserInfo → String × String)
    (getBookings : String → List Booking)
    (user_message : String) (user_info : Option UserInfo) : HandlerTrace :=
  if pyLower (py_strip user_message) = "need help?" then
    { sent := ["Hello " ++ greeting_name user_info
                ++ "! I'm the ZappQ Support assistant. How can I help you today?"],
      aiCalls := 0 }
  else
    let r := ai user_message user_info
    let intent := r.1
    let answer := r.2
    let reply :=
      if intent = "upcoming_bookings" then
        match user_info with
        | some u =>
          if truthy u.uid then format_bookings_for_whatsapp (getBookings (u.uid.getD ""))
          else "I couldn't find your records to check for upcoming appointments."
        | none => "I couldn't find your records to check for upcoming appointments."
      else if intent = "past_bookings" then
        match user_info with
        | some u =>
          if truthy u.uid then format_past_bookings_for_whatsapp (getBookings (u.uid.getD ""))
          else "I couldn't find your records to check for past appointments."
        | none => "I couldn't find your records to check for past appointments."
      else if intent = "user_name" then
        match user_info with
        | some u =>
          if truthy u.name then
            "Based on your phone number, your name is *" ++ u.name.getD "" ++ "*."
          else "I couldn't find a name associated with this phone number."
        | none => "I couldn't find a name associated with this phone number."
      else answer
    { sent := [reply], aiCalls := 1 }

/-! ## Theorems -/

set_option maxRecDepth 40000

/-- A fresh cache write is read back by the key it was stored under. -/
theorem cacheGet_cacheSet {υ : Type} (c : Cache υ) (k : String) (v : Option υ × Nat) :
    cacheGet (cacheSet c k v) k = some v := by
  simp [cacheGet, cacheSet]

/-- Claim C1, counterexample: on the single-line input `"hello"` with no
marker the parse returns the EMPTY answer, not the whole line, because
the answer is built only from the text after the first newline. -/
theorem C1_counterexample :
    parse_smart_response "hello" = ("general", "") ∧ ("" : String) ≠ "hello" := by
  decide

/-- Claim C1, amended: when the first line of the stripped response
lacks the marker, the intent is `"general"` and the answer is the text
after the first newline with every `"RESPONSE:"` removed and trimmed —
in particular empty for a single-line response, never the full raw
text. -/
theorem C1_amended (raw : String)
    (h : hasIntentMarker (firstLine (py_strip raw)) = false) :
    parse_smart_response raw =
      ("general", py_strip ⟨removeSeq "RESPONSE:".data (restLines (py_strip raw)).data⟩) := by
  simp [parse_smart_response, h]

/-- Witness for `C1_amended` at a concrete two-line marker-free input. -/
theorem C1_amended_witness :
    hasIntentMarker (firstLine (py_strip "alpha\nbeta RESPONSE: gamma")) = false ∧
    parse_smart_response "alpha\nbeta RESPONSE: gamma" =
      ("general",
        py_strip ⟨removeSeq "RESPONSE:".data (restLines (py_strip "alpha\nbeta RESPONSE: gamma")).data⟩) :=
  ⟨by decide, C1_amended "alpha\nbeta RESPONSE: gamma" (by decide)⟩

/-- Claim C2, counterexample: an unrecognized label is returned verbatim
(lower-cased), NOT replaced by `"general"` — the parsed intent is not
always one of the four labels. -/
theorem C2_counterexample :
    parse_smart_response "INTENT: FooBar\nRESPONSE: ok" = ("foobar", "ok") ∧
    ("foobar" : String) ≠ "general" ∧ ("foobar" : String) ≠ "upcoming_bookings" ∧
    ("foobar" : String) ≠ "past_bookings" ∧ ("foobar" : String) ≠ "user_name" := by
  decide

/-- Claim C2, amended: the parse extracts the lower-cased trimmed value
after the marker without validating it, and the router treats every
intent other than the three special labels — unrecognized ones
included — exactly like `"general"`: the reply is the AI's free-text
answer. -/
theorem C2_amended (raw : String)
    (h : hasIntentMarker (firstLine (py_strip raw)) = true)
    (ai : String → Option UserInfo → String × String)
    (getBookings : String → List Booking) (msg : String) (ui : Option UserInfo)
    (hmsg : pyLower (py_strip msg) ≠ "need help?")
    (hai : ai msg ui = parse_smart_response raw)
    (h1 : (parse_smart_response raw).1 ≠ "upcoming_bookings")
    (h2 : (parse_smart_response raw).1 ≠ "past_bookings")
    (h3 : (parse_smart_response raw).1 ≠ "user_name") :
    (parse_smart_response raw).1 =
      pyLower (py_strip (afterIntentMarker (firstLine (py_strip raw)))) ∧
    handle_user_query ai getBookings msg ui = ⟨[(parse_smart_response raw).2], 1⟩ := by
  constructor
  · simp [parse_smart_response, h]
  · simp [handle_user_query, hmsg, hai, h1, h2, h3]

/-- Witness for `C2_amended` at the unrecognized label `foobar`. -/
theorem C2_amended_witness :
    hasIntentMarker (firstLine (py_strip "INTENT: FooBar\nRESPONSE: ok")) = true ∧
    (parse_smart_response "INTENT: FooBar\nRESPONSE: ok").1 =
      pyLower (py_strip (afterIntentMarker (firstLine (py_strip "INTENT: FooBar\nRESPONSE: ok")))) ∧
    handle_user_query (fun _ _ => parse_smart_response "INTENT: FooBar\nRESPONSE: ok")
        (fun _ => []) "hi" none =
      ⟨[(parse_smart_response "INTENT: FooBar\nRESPONSE: ok").2], 1⟩ := by
  refine ⟨by decide, ?_⟩
  exact C2_amended "INTENT: FooBar\nRESPONSE: ok" (by decide) _ _ "hi" none
    (by decide) rfl (by decide) (by decide) (by decide)

/-- Claim C3: after a first resolve that reached the directory (result
`u`, cached at `t0`), a second resolve before `CACHE_TTL` seconds have
passed returns the identical cached value — a cached not-found
included — without querying (`queried = false`, cache untouched); from
`CACHE_TTL` seconds on, the entry is ignored and the call behaves
exactly like a fresh directory fetch, never serving the stale value. -/
theorem C3_cache_ttl {υ : Type} (dir dir2 : String → DirResult υ)
    (t0 t1 : Nat) (c0 : Cache υ) (phone : String) (u : Option υ)
    (hmiss : cacheGet c0 phone = none)
    (hdir : dir (query_number phone) = .ok u) :
    ((get_user_info dir t0 c0 phone).result = u ∧
     (get_user_info dir t0 c0 phone).queried = true ∧
     (get_user_info dir t0 c0 phone).cache = cacheSet c0 phone (u, t0)) ∧
    (t1 - t0 < CACHE_TTL →
      get_user_info dir2 t1 (cacheSet c0 phone (u, t0)) phone =
        ⟨u, cacheSet c0 phone (u, t0), false⟩) ∧
    (CACHE_TTL ≤ t1 - t0 →
      get_user_info dir2 t1 (cacheSet c0 phone (u, t0)) phone =
        fetch_user dir2 t1 (cacheSet c0 phone (u, t0)) phone) := by
  refine ⟨?_, ?_, ?_⟩
  · cases u <;> simp [get_user_info, fetch_user, hmiss, hdir]
  · intro hlt
    simp [get_user_info, cacheGet_cacheSet, hlt]
  · intro hge
    simp [get_user_info, cacheGet_cacheSet, Nat.not_lt.mpr hge]

/-- Witness for `C3_cache_ttl`: first fetch at `t0 = 0`, second call at
`t1 = 299`, one second inside the 300-second TTL. -/
theorem C3_cache_ttl_witness :
    ((get_user_info (υ := Nat) (fun _ => .ok (some 7)) 0 [] "p").result = some 7 ∧
     (get_user_info (υ := Nat) (fun _ => .ok (some 7)) 0 [] "p").queried = true ∧
     (get_user_info (υ := Nat) (fun _ => .ok (some 7)) 0 [] "p").cache =
       cacheSet [] "p" (some 7, 0)) ∧
    (299 - 0 < CACHE_TTL →
      get_user_info (υ := Nat) (fun _ => .ok (some 9)) 299 (cacheSet [] "p" (some 7, 0)) "p" =
        ⟨some 7, cacheSet [] "p" (some 7, 0), false⟩) ∧
    (CACHE_TTL ≤ 299 - 0 →
      get_user_info (υ := Nat) (fun _ => .ok (some 9)) 299 (cacheSet [] "p" (some 7, 0)) "p" =
        fetch_user (fun _ => .ok (some 9)) 299 (cacheSet [] "p" (some 7, 0)) "p") :=
  C3_cache_ttl (fun _ => .ok (some 7)) (fun _ => .ok (some 9)) 0 299 [] "p" (some 7) rfl rfl

/-- Claim C4 (the code at the failing input): `lstrip('91')` removes
every leading `9`/`1` character, eating subscriber digits — on
`"+919912345678"` it yields `"2345678"` instead of the prefix-stripped
`"9912345678"` — and also strips numbers that do not start with the
`"91"` prefix at all. -/
theorem C4_code_eval :
    query_number "+919912345678" = "2345678" ∧
    query_number "+919912345678" ≠ "9912345678" ∧
    query_number "14155551234" = "4155551234" := by
  decide

/-- Claim C5, counterexample: with mode `subscribe`, a missing
challenge, and a wrong token, the handler falls through and returns
nothing at all (Flask server error) — not the claimed 403. -/
theorem C5_counterexample :
    webhook_verify (some "tok") ⟨some "subscribe", none, some "wrong"⟩ = none ∧
    (none : Option (String × Nat)) ≠ some ("Forbidden", 403) := by
  decide

/-- Claim C5, amended: when the mode is `subscribe` and a non-empty
challenge is present, a matching token echoes the challenge with 200
and a mismatch gives 403; but when the mode is wrong/missing or the
challenge is missing/empty, the handler returns no response at all
(Flask turns this into a server error), not 403. -/
theorem C5_amended (cfg : Option String) (args : WebhookArgs) :
    (args.mode = some "subscribe" → truthy args.challenge = true →
      (args.verify_token = cfg →
        webhook_verify cfg args = some (args.challenge.getD "", 200)) ∧
      (args.verify_token ≠ cfg →
        webhook_verify cfg args = some ("Forbidden", 403))) ∧
    (args.mode ≠ some "subscribe" ∨ truthy args.challenge = false →
      webhook_verify cfg args = none) := by
  constructor
  · intro hm hc
    constructor
    · intro ht
      simp [webhook_verify, hm, hc, ht]
    · intro ht
      simp [webhook_verify, hm, hc, ht]
  · intro h
    rcases h with h | h
    · simp [webhook_verify, h]
    · simp [webhook_verify, h]

/-- Witness for `C5_amended` on the three concrete request shapes. -/
theorem C5_amended_witness :
    webhook_verify (some "tok") ⟨some "subscribe", some "123", some "tok"⟩ = some ("123", 200) ∧
    webhook_verify (some "tok") ⟨some "subscribe", some "123", some "bad"⟩ = some ("Forbidden", 403) ∧
    webhook_verify (some "tok") ⟨none, some "123", some "tok"⟩ = none :=
  ⟨((C5_amended (some "tok") ⟨some "subscribe", some "123", some "tok"⟩).1 rfl (by decide)).1 rfl,
   ((C5_amended (some "tok") ⟨some "subscribe", some "123", some "bad"⟩).1 rfl (by decide)).2 (by decide),
   (C5_amended (some "tok") ⟨none, some "123", some "tok"⟩).2 (by decide)⟩

/-- Claim C6: both formatters sort the filtered bookings by parsed
timestamp — ascending for upcoming, descending for past, as stable
permutations of the filter output; a missing or unparseable timestamp
keys as `datetime.min`; and on the three bookings of the claim the
upcoming formatter orders them unparseable first, then March 1, then
March 2. -/
theorem C6_sorting :
    (∀ bs : List Booking, List.Sorted bookLeAsc (upcomingSorted bs)) ∧
    (∀ bs : List Booking, List.Sorted bookLeDesc (pastSorted bs)) ∧
    (∀ bs : List Booking, (upcomingSorted bs).Perm (bs.filter isUpcoming)) ∧
    (∀ bs : List Booking, (pastSorted bs).Perm (bs.filter isCompleted)) ∧
    get_sort_key {} = datetimeMin ∧
    get_sort_key { timestamp := some (.str "soon") } = datetimeMin ∧
    parseTimestamp "March 1, 2024 at 10:00:00 AM UTC+5:30" = some ⟨2024, 3, 1, 10, 0, 0⟩ ∧
    upcomingSorted
        [{ timestamp := some (.str "March 1, 2024 at 10:00:00 AM UTC+5:30"), bookingStatus := some "upcoming" },
         { timestamp := some (.str "soon"), bookingStatus := some "upcoming" },
         { timestamp := some (.str "March 2, 2024 at 09:00:00 AM UTC+5:30"), bookingStatus := some "upcoming" }] =
        [{ timestamp := some (.str "soon"), bookingStatus := some "upcoming" },
         { timestamp := some (.str "March 1, 2024 at 10:00:00 AM UTC+5:30"), bookingStatus := some "upcoming" },
         { timestamp := some (.str "March 2, 2024 at 09:00:00 AM UTC+5:30"), bookingStatus := some "upcoming" }] ∧
    format_bookings_for_whatsapp
        [{ timestamp := some (.str "March 1, 2024 at 10:00:00 AM UTC+5:30"), bookingStatus := some "upcoming" },
         { timestamp := some (.str "soon"), bookingStatus := some "upcoming" },
         { timestamp := some (.str "March 2, 2024 at 09:00:00 AM UTC+5:30"), bookingStatus := some "upcoming" }] =
      "🗓️ *Your Upcoming Appointments*\n--------------------------------------\n"
        ++ "\n*Clinic:* Not specified\n*Specialization:* Not specified\n*Doctor:* Not specified\n*Date:* soon\n--------------------------------------\n"
        ++ "\n*Clinic:* Not specified\n*Specialization:* Not specified\n*Doctor:* Not specified\n*Date:* March 1, 2024 at 10:00:00 AM UTC+5:30\n--------------------------------------\n"
        ++ "\n*Clinic:* Not specified\n*Specialization:* Not specified\n*Doctor:* Not specified\n*Date:* March 2, 2024 at 09:00:00 AM UTC+5:30\n--------------------------------------\n" := by
  refine ⟨fun bs => List.sorted_insertionSort bookLeAsc _,
          fun bs => List.sorted_insertionSort bookLeDesc _,
          fun bs => List.perm_insertionSort bookLeAsc _,
          fun bs => List.perm_insertionSort bookLeDesc _,
          by decide, by decide, by decide, by decide, by decide⟩

/-- Claim C7: an empty input list gives the "no bookings at all"
message, a non-empty list with no booking of the category's status
gives the distinct category-specific "none found" message, and the two
messages differ, for both formatters. -/
theorem C7_empty_cases :
    format_bookings_for_whatsapp [] = "You have no appointments found in our system." ∧
    format_past_bookings_for_whatsapp [] = "You have no booking history found in our system." ∧
    (∀ bs : List Booking, bs ≠ [] → bs.filter isUpcoming = [] →
       format_bookings_for_whatsapp bs =
         "You have no upcoming appointments scheduled at this time.") ∧
    (∀ bs : List Booking, bs ≠ [] → bs.filter isCompleted = [] →
       format_past_bookings_for_whatsapp bs =
         "No completed bookings found in your history.") ∧
    ("You have no appointments found in our system." : String) ≠
      "You have no upcoming appointments scheduled at this time." ∧
    ("You have no booking history found in our system." : String) ≠
      "No completed bookings found in your history." := by
  refine ⟨by decide, by decide, ?_, ?_, by decide, by decide⟩
  · intro bs h1 h2
    simp [format_bookings_for_whatsapp, h1, h2]
  · intro bs h1 h2
    simp [format_past_bookings_for_whatsapp, h1, h2]

/-- Witness for `C7_empty_cases`: one completed booking is non-empty
input with an empty upcoming filter. -/
theorem C7_empty_cases_witness :
    ([{ bookingStatus := some "completed" }] : List Booking) ≠ [] ∧
    ([{ bookingStatus := some "completed" }] : List Booking).filter isUpcoming = [] ∧
    format_bookings_for_whatsapp [{ bookingStatus := some "completed" }] =
      "You have no upcoming appointments scheduled at this time." :=
  ⟨by decide, by decide,
   C7_empty_cases.2.2.1 [{ bookingStatus := some "completed" }] (by decide) (by decide)⟩

/-- Claim C8, counterexample: a rendered upcoming booking with a
missing timestamp shows `*Date:* Not scheduled`, so not every missing
field renders as "Not specified". -/
theorem C8_counterexample :
    format_bookings_for_whatsapp [{ bookingStatus := some "upcoming" }] =
      "🗓️ *Your Upcoming Appointments*\n--------------------------------------\n\n*Clinic:* Not specified\n*Specialization:* Not specified\n*Doctor:* Not specified\n*Date:* Not scheduled\n--------------------------------------\n" ∧
    containsSeq "*Date:* Not specified".data
      (format_bookings_for_whatsapp [{ bookingStatus := some "upcoming" }]).data = false ∧
    ("Not scheduled" : String) ≠ "Not specified" := by
  refine ⟨by decide, by decide, by decide⟩

/-- Claim C8, amended: missing clinic/specialization/doctor/date fields
render as "Not specified" but a missing timestamp renders as
"Not scheduled"; a native-datetime timestamp of an upcoming booking is
converted to Asia/Kolkata (+05:30) and formatted as
`<Weekday>, <Month> DD, YYYY at HH:MM AM/PM`. -/
theorem C8_amended :
    (∀ b : Booking, b.clinicName = none → b.specialization = none →
       b.doctorName = none → b.timestamp = none →
       upcoming_booking_block b =
         "\n*Clinic:* Not specified\n*Specialization:* Not specified\n*Doctor:* Not specified\n*Date:* Not scheduled\n--------------------------------------\n") ∧
    (∀ b : Booking, b.clinicName = none → b.doctorName = none →
       b.bookingDate = none → b.bookingStatus = some "completed" →
       past_booking_block b =
         "\n*Clinic:* Not specified\n*Doctor:* Not specified\n*Date:* Not specified\n*Status:* Completed\n--------------------------------------\n") ∧
    (∀ (b : Booking) (d : PyDateTime), b.timestamp = some (.dt d) →
       upcoming_booking_block b =
         "\n*Clinic:* " ++ b.clinicName.getD "Not specified"
           ++ "\n*Specialization:* " ++ b.specialization.getD "Not specified"
           ++ "\n*Doctor:* " ++ b.doctorName.getD "Not specified"
           ++ "\n*Date:* " ++ strftimeDisplay (astimezoneIST d)
           ++ "\n--------------------------------------\n") ∧
    astimezoneIST ⟨2024, 3, 1, 10, 0, 0⟩ = ⟨2024, 3, 1, 15, 30, 0⟩ ∧
    strftimeDisplay ⟨2024, 3, 1, 15, 30, 0⟩ = "Friday, March 01, 2024 at 03:30 PM" := by
  refine ⟨?_, ?_, ?_, by decide, by decide⟩
  · intro b h1 h2 h3 h4
    simp [upcoming_booking_block, h1, h2, h3, h4]
  · intro b h1 h2 h3 h4
    simp [past_booking_block, h1, h2, h3, h4]
    decide
  · intro b d h
    simp [upcoming_booking_block, h]

/-- Witness for `C8_amended`: the all-missing booking and a
native-datetime booking. -/
theorem C8_amended_witness :
    upcoming_booking_block {} =
      "\n*Clinic:* Not specified\n*Specialization:* Not specified\n*Doctor:* Not specified\n*Date:* Not scheduled\n--------------------------------------\n" ∧
    upcoming_booking_block { timestamp := some (.dt ⟨2024, 3, 1, 10, 0, 0⟩) } =
      "\n*Clinic:* " ++ (none : Option String).getD "Not specified"
        ++ "\n*Specialization:* " ++ (none : Option String).getD "Not specified"
        ++ "\n*Doctor:* " ++ (none : Option String).getD "Not specified"
        ++ "\n*Date:* " ++ strftimeDisplay (astimezoneIST ⟨2024, 3, 1, 10, 0, 0⟩)
        ++ "\n--------------------------------------\n" :=
  ⟨C8_amended.1 {} rfl rfl rfl rfl,
   C8_amended.2.2.1 { timestamp := some (.dt ⟨2024, 3, 1, 10, 0, 0⟩) } ⟨2024, 3, 1, 10, 0, 0⟩ rfl⟩

/-- Claim C9: a message equal to "need help?" after trimming and
lower-casing makes the router send exactly one greeting — addressed to
the resolved user's name or to "there" — and perform zero AI Bridge
calls. -/
theorem C9_trigger (ai : String → Option UserInfo → String × String)
    (getBookings : String → List Booking) (msg : String) (ui : Option UserInfo)
    (h : pyLower (py_strip msg) = "need help?") :
    handle_user_query ai getBookings msg ui =
      ⟨["Hello " ++ greeting_name ui
          ++ "! I'm the ZappQ Support assistant. How can I help you today?"], 0⟩ := by
  simp [handle_user_query, h]

/-- Witness for `C9_trigger` on two casings/paddings of the trigger,
with and without a resolved user. -/
theorem C9_trigger_witness :
    handle_user_query (fun _ _ => ("general", "x")) (fun _ => []) "  Need HELP?  "
        (some { name := some "Asha" }) =
      ⟨["Hello Asha! I'm the ZappQ Support assistant. How can I help you today?"], 0⟩ ∧
    handle_user_query (fun _ _ => ("general", "x")) (fun _ => []) "NEED HELP?" none =
      ⟨["Hello there! I'm the ZappQ Support assistant. How can I help you today?"], 0⟩ :=
  ⟨C9_trigger _ _ "  Need HELP?  " (some { name := some "Asha" }) (by decide),
   C9_trigger _ _ "NEED HELP?" none (by decide)⟩

/-- Claim C10: on a cache miss, a successful directory query — found or
definitively not-found — writes `(value, now)` into the cache and
returns the value, while a raised directory error returns `None`
WITHOUT writing anything, so the very next call for the same number
queries the directory again instead of serving a cached null. -/
theorem C10_error_not_cached {υ : Type} (dir : String → DirResult υ)
    (t : Nat) (c : Cache υ) (phone : String) (u : Option υ)
    (hmiss : cacheGet c phone = none) :
    (dir (query_number phone) = .ok u →
       get_user_info dir t c phone = ⟨u, cacheSet c phone (u, t), true⟩ ∧
       cacheGet (cacheSet c phone (u, t)) phone = some (u, t)) ∧
    (dir (query_number phone) = .err →
       get_user_info dir t c phone = ⟨none, c, true⟩ ∧
       (∀ (dir2 : String → DirResult υ) (t2 : Nat),
          (get_user_info dir2 t2 c phone).queried = true)) := by
  constructor
  · intro hok
    refine ⟨?_, cacheGet_cacheSet c phone (u, t)⟩
    cases u <;> simp [get_user_info, fetch_user, hmiss, hok]
  · intro herr
    refine ⟨by simp [get_user_info, fetch_user, hmiss, herr], ?_⟩
    intro dir2 t2
    simp only [get_user_info, hmiss]
    cases h2 : dir2 (query_number phone) with
    | ok u2 => cases u2 <;> simp [fetch_user, h2]
    | err => simp [fetch_user, h2]

/-- Witness for `C10_error_not_cached` on an always-raising directory. -/
theorem C10_error_not_cached_witness :
    ((fun (_ : String) => DirResult.err (υ := Nat)) (query_number "p") = .ok (some 7) →
       get_user_info (fun _ => .err) 5 ([] : Cache Nat) "p" = ⟨some 7, cacheSet [] "p" (some 7, 5), true⟩ ∧
       cacheGet (cacheSet ([] : Cache Nat) "p" (some 7, 5)) "p" = some (some 7, 5)) ∧
    ((fun (_ : String) => DirResult.err (υ := Nat)) (query_number "p") = .err →
       get_user_info (fun _ => .err) 5 ([] : Cache Nat) "p" = ⟨none, [], true⟩ ∧
       (∀ (dir2 : String → DirResult Nat) (t2 : Nat),
          (get_user_info dir2 t2 ([] : Cache Nat) "p").queried = true)) :=
  C10_error_not_cached (fun _ => .err) 5 [] "p" (some 7) rfl
